import Mathlib

set_option autoImplicit false
set_option maxRecDepth 100000

namespace Sboot

/-!
Byte-level model of `src/lib/tlcl/tlcl_hmac.c` (functions `TSS_CheckHMAC`
and `TSS_AuthHMAC`).  Buffers are lists of bytes (`List Nat`, each entry a
value below 256), C pointers that may be `NULL` are `Option (List Nat)`,
and a call's outcome is either the returned `uint32_t` code or undefined
behavior (a `NULL` dereference or an access outside a buffer).
-/

/-- Size in bytes of a TPM `uint16` field (`TPM_U16_SIZE`). -/
def TPM_U16_SIZE : Nat := 2

/-- Size in bytes of a TPM `uint32` field (`TPM_U32_SIZE`). -/
def TPM_U32_SIZE : Nat := 4

/-- Modelled from the spec: the fixed protocol nonce size.  The constant is
declared in the library headers (not under `src/`); the spec fixes it at 20
bytes for the SHA-1 based protocol. -/
def TPM_NONCE_SIZE : Nat := 20

/-- Modelled from the spec: the fixed digest size of the hash primitive
(SHA-1), 20 bytes; declared in the library headers, not under `src/`. -/
def TPM_HASH_SIZE : Nat := 20

/-- Modelled from the spec: the NO_AUTH response tag (`TPM_TAG_RSP_COMMAND`,
standard TPM 1.2 value 0x00C4); declared in headers outside `src/`. -/
def TPM_TAG_RSP_COMMAND : Nat := 196

/-- Modelled from the spec: the AUTH1 response tag
(`TPM_TAG_RSP_AUTH1_COMMAND`, standard TPM 1.2 value 0x00C5). -/
def TPM_TAG_RSP_AUTH1_COMMAND : Nat := 197

/-- Modelled from the spec: the AUTH2 response tag
(`TPM_TAG_RSP_AUTH2_COMMAND`, standard TPM 1.2 value 0x00C6). -/
def TPM_TAG_RSP_AUTH2_COMMAND : Nat := 198

/-- The success return code (`TPM_SUCCESS`). -/
def TPM_SUCCESS : Nat := 0

/-- Modelled from the spec: the `NullArgument` error code (`TPM_E_NULL_ARG`);
its numeric value lives in headers outside `src/`, the claims only need it
distinct from the other codes. -/
def TPM_E_NULL_ARG : Nat := 55

/-- Modelled from the spec: the `HmacFailure` error code (`TPM_E_HMAC_FAIL`);
its numeric value lives in headers outside `src/`. -/
def TPM_E_HMAC_FAIL : Nat := 56

/-- The `len` bytes of `buf` starting at byte offset `pos`. -/
def listSlice (buf : List Nat) (pos len : Nat) : List Nat :=
  (buf.drop pos).take len

/-- A read of `len` bytes at offset `pos`: `some` slice when the range lies
inside the buffer, `none` when the C code would touch memory outside it. -/
def readRange (buf : List Nat) (pos len : Nat) : Option (List Nat) :=
  if pos + len ≤ buf.length then some (listSlice buf pos len) else none

/-- Big-endian decode of an `n`-byte unsigned field of `buf` at `pos`
(the shared shape of the C helpers `FromTpmUint16` / `FromTpmUint32`). -/
def beField (buf : List Nat) (pos n : Nat) : Nat :=
  (listSlice buf pos n).foldl (fun a b => 256 * a + b % 256) 0

/-- C `FromTpmUint16`: big-endian 2-byte decode. -/
def fromTpmUint16 (buf : List Nat) (pos : Nat) : Nat :=
  beField buf pos TPM_U16_SIZE

/-- C `FromTpmUint32`: big-endian 4-byte decode. -/
def fromTpmUint32 (buf : List Nat) (pos : Nat) : Nat :=
  beField buf pos TPM_U32_SIZE

/-- C `ToTpmUint32`: big-endian encoding of a `uint32` into four bytes. -/
def toTpmUint32 (x : Nat) : List Nat :=
  [x / 16777216 % 256, x / 65536 % 256, x / 256 % 256, x % 256]

/-- Outcome of a call of a C function returning `uint32_t`: a returned code,
or undefined behavior (`NULL` dereference or out-of-bounds access). -/
inductive CRun where
  | ret : Nat → CRun
  | undef : CRun
deriving DecidableEq

/-- The hash and HMAC primitives (`sha1_starts`/`sha1_update`/`sha1_finish`
and `hmac_starts`/`hmac_update`/`hmac_finish`), which the spec treats as a
trusted black box of fixed digest size.  An incremental context is modelled
by the list of bytes streamed into it; finishing applies the function to
that list.  Both primitives produce exactly `TPM_HASH_SIZE` bytes. -/
structure HashPrims where
  sha1 : List Nat → List Nat
  hmac : List Nat → List Nat → List Nat
  sha1_len : ∀ d, (sha1 d).length = TPM_HASH_SIZE
  hmac_len : ∀ k d, (hmac k d).length = TPM_HASH_SIZE

/-- The variadic `(arg_size, arg_pos)` pairs of `TSS_CheckHMAC` up to (not
including) the first zero-size sentinel, mirroring the termination of the
`for (;;)` loop at lines 69-74. -/
def vaRanges : List (Nat × Nat) → List (Nat × Nat)
  | [] => []
  | (sz, pos) :: rest => if sz = 0 then [] else (sz, pos) :: vaRanges rest

/-- The bytes hashed for a list of selected `(size, position)` ranges of the
response; `none` when some selected range reaches outside the buffer. -/
def rangesBytes (buf : List Nat) : List (Nat × Nat) → Option (List Nat)
  | [] => some []
  | (sz, pos) :: rest => do
      let b ← readRange buf pos sz
      let r ← rangesBytes buf rest
      pure (b ++ r)

/-- One authorization-trailer check of `TSS_CheckHMAC` (lines 88-98 for the
first block, 103-113 for the second): read the even nonce at byte
`size - offset`, the continue flag right after it and the embedded HMAC
after that, recompute `HMAC(key, paramDigest ++ evenNonce ++ nonceOdd ++
continueFlag)` and compare it byte for byte (`memcmp`) with the embedded
field.  `none` means the C code would read outside the buffer (including a
trailer offset larger than the declared size, which underflows the pointer
arithmetic `response + size - offset`). -/
def checkAuthBlock (P : HashPrims) (resp paramDigest nonceOddBytes key : List Nat)
    (size offset : Nat) : Option Bool :=
  if offset ≤ size then
    match readRange resp (size - offset) TPM_NONCE_SIZE,
          readRange resp (size - offset + TPM_NONCE_SIZE) 1,
          readRange resp (size - offset + TPM_NONCE_SIZE + 1) TPM_HASH_SIZE with
    | some evenNonce, some contFlag, some embedded =>
      some (decide
        (P.hmac key (paramDigest ++ evenNonce ++ nonceOddBytes ++ contFlag) = embedded))
    | _, _, _ => none
  else none

/-- `TSS_CheckHMAC` (lines 30-117).  The tag and declared size are decoded
from the first six response bytes before anything else (so a `NULL`
response is dereferenced immediately); a `TPM_TAG_RSP_COMMAND` (NO_AUTH)
tag returns success before the `NULL`-argument check; then the tag is
dispatched, the parameter digest is computed over the return-code bytes at
offset 6, the big-endian ordinal, and the variadic ranges; finally one
(AUTH1) or two (AUTH2) trailer blocks are checked. -/
def TSS_CheckHMAC (P : HashPrims) (response : Option (List Nat)) (command : Nat)
    (nonceOdd key key2 : Option (List Nat)) (args : List (Nat × Nat)) : CRun :=
  match response with
  | none => CRun.undef
  | some resp =>
    if TPM_U16_SIZE + TPM_U32_SIZE ≤ resp.length then
      let tag := fromTpmUint16 resp 0
      let size := fromTpmUint32 resp TPM_U16_SIZE
      if tag = TPM_TAG_RSP_COMMAND then CRun.ret TPM_SUCCESS
      else
        match nonceOdd, key with
        | none, _ => CRun.ret TPM_E_NULL_ARG
        | some _, none => CRun.ret TPM_E_NULL_ARG
        | some no, some k =>
          if tag ≠ TPM_TAG_RSP_AUTH1_COMMAND ∧ tag ≠ TPM_TAG_RSP_AUTH2_COMMAND then
            CRun.ret TPM_E_HMAC_FAIL
          else if tag = TPM_TAG_RSP_AUTH2_COMMAND ∧ key2 = none then
            CRun.ret TPM_E_NULL_ARG
          else
            match readRange resp (TPM_U16_SIZE + TPM_U32_SIZE) TPM_U32_SIZE,
                  rangesBytes resp (vaRanges args),
                  readRange no 0 TPM_NONCE_SIZE with
            | some rcBytes, some selBytes, some noBytes =>
              let paramDigest := P.sha1 (rcBytes ++ toTpmUint32 command ++ selBytes)
              let offset := if tag = TPM_TAG_RSP_AUTH2_COMMAND
                then 2 * (TPM_NONCE_SIZE + 1 + TPM_HASH_SIZE)
                else TPM_NONCE_SIZE + 1 + TPM_HASH_SIZE
              match checkAuthBlock P resp paramDigest noBytes k size offset with
              | none => CRun.undef
              | some false => CRun.ret TPM_E_HMAC_FAIL
              | some true =>
                if tag = TPM_TAG_RSP_AUTH2_COMMAND then
                  match key2 with
                  | none => CRun.undef
                  | some k2 =>
                    match checkAuthBlock P resp paramDigest noBytes k2 size (offset / 2) with
                    | none => CRun.undef
                    | some false => CRun.ret TPM_E_HMAC_FAIL
                    | some true => CRun.ret TPM_SUCCESS
                else CRun.ret TPM_SUCCESS
            | _, _, _ => CRun.undef
    else CRun.undef

/-- Outcome of `TSS_AuthHMAC`: on success the digest written through the
output pointer, on error the returned code with the output buffer left
untouched (the C code writes `digest` only in `hmac_finish`). -/
inductive AuthResult where
  | ok : List Nat → AuthResult
  | err : Nat → AuthResult
  | undef : AuthResult
deriving DecidableEq

/-- Result of scanning the variadic `(arg_size, arg_data)` list of
`TSS_AuthHMAC`. -/
inductive VaScan where
  | ok : List Nat → VaScan
  | nullArg : VaScan
  | oob : VaScan
deriving DecidableEq

/-- The variadic loop of `TSS_AuthHMAC` (lines 137-144): stop at a zero
size, fail on a `NULL` data pointer, otherwise hash `arg_size` bytes of the
entry (out of bounds when the entry is shorter than its declared size). -/
def scanAuthArgs : List (Nat × Option (List Nat)) → VaScan
  | [] => VaScan.ok []
  | (sz, d) :: rest =>
    if sz = 0 then VaScan.ok []
    else
      match d with
      | none => VaScan.nullArg
      | some data =>
        if sz ≤ data.length then
          match scanAuthArgs rest with
          | VaScan.ok bs => VaScan.ok (data.take sz ++ bs)
          | r => r
        else VaScan.oob

/-- `TSS_AuthHMAC` (lines 119-157): check both nonces for `NULL`, hash
exactly the variadic ranges (no ordinal) into the parameter digest, then
return `HMAC(key, paramDigest ++ nonce1 ++ nonce2 ++ authBool)` where
`nonce1` is the caller's odd nonce and `nonce2` the even nonce. -/
def TSS_AuthHMAC (P : HashPrims) (key : List Nat)
    (nonce1 nonce2 : Option (List Nat)) (authBool : Nat)
    (args : List (Nat × Option (List Nat))) : AuthResult :=
  match nonce1, nonce2 with
  | none, _ => AuthResult.err TPM_E_NULL_ARG
  | some _, none => AuthResult.err TPM_E_NULL_ARG
  | some n1, some n2 =>
    match scanAuthArgs args with
    | VaScan.nullArg => AuthResult.err TPM_E_NULL_ARG
    | VaScan.oob => AuthResult.undef
    | VaScan.ok data =>
      let paramDigest := P.sha1 data
      match readRange n1 0 TPM_NONCE_SIZE, readRange n2 0 TPM_NONCE_SIZE with
      | some n1b, some n2b =>
        AuthResult.ok (P.hmac key (paramDigest ++ n1b ++ n2b ++ [authBool % 256]))
      | _, _ => AuthResult.undef

/-- A byte-mixing step used by the concrete test primitives. -/
def mixByte (a b : Nat) : Nat := (3 * a + b + 1) % 256

/-- A small concrete stand-in hash of the right output size, used only to
evaluate the model at concrete inputs. -/
def testHash (d : List Nat) : List Nat :=
  List.replicate TPM_HASH_SIZE (d.foldl mixByte 5)

/-- Concrete instance of the primitives for witnesses and counterexamples. -/
def testPrims : HashPrims where
  sha1 := testHash
  hmac := fun k d => testHash (k ++ [7] ++ d)
  sha1_len := fun d => by simp [testHash]
  hmac_len := fun k d => by simp [testHash]

/-! ### Reduction lemmas -/

theorem readRange_eq_some (buf : List Nat) (pos len : Nat)
    (h : pos + len ≤ buf.length) :
    readRange buf pos len = some (listSlice buf pos len) := by
  simp [readRange, h]

theorem checkAuthBlock_eq (P : HashPrims) (resp pd nob k : List Nat) (S off : Nat)
    (h1 : off ≤ S) (h2 : S ≤ resp.length)
    (h3 : TPM_NONCE_SIZE + 1 + TPM_HASH_SIZE ≤ off) :
    checkAuthBlock P resp pd nob k S off =
      some (decide
        (P.hmac k (pd ++ listSlice resp (S - off) TPM_NONCE_SIZE ++ nob
            ++ listSlice resp (S - off + TPM_NONCE_SIZE) 1)
          = listSlice resp (S - off + TPM_NONCE_SIZE + 1) TPM_HASH_SIZE)) := by
  have c1 : TPM_NONCE_SIZE = 20 := rfl
  have c2 : TPM_HASH_SIZE = 20 := rfl
  unfold checkAuthBlock
  rw [if_pos h1,
    readRange_eq_some resp (S - off) TPM_NONCE_SIZE (by omega),
    readRange_eq_some resp (S - off + TPM_NONCE_SIZE) 1 (by omega),
    readRange_eq_some resp (S - off + TPM_NONCE_SIZE + 1) TPM_HASH_SIZE (by omega)]

/-- Reduction of `TSS_CheckHMAC` on an in-bounds AUTH1 response: the result
is decided by the comparison of the recomputed HMAC with the embedded one. -/
theorem TSS_CheckHMAC_auth1_eq (P : HashPrims) (resp no k : List Nat)
    (key2 : Option (List Nat)) (command : Nat) (args : List (Nat × Nat))
    (selBytes : List Nat) (S : Nat)
    (htag : fromTpmUint16 resp 0 = TPM_TAG_RSP_AUTH1_COMMAND)
    (hS : fromTpmUint32 resp TPM_U16_SIZE = S)
    (hhdr : TPM_U16_SIZE + TPM_U32_SIZE + TPM_U32_SIZE ≤ resp.length)
    (hsel : rangesBytes resp (vaRanges args) = some selBytes)
    (hno : TPM_NONCE_SIZE ≤ no.length)
    (hlo : TPM_NONCE_SIZE + 1 + TPM_HASH_SIZE ≤ S)
    (hhi : S ≤ resp.length) :
    TSS_CheckHMAC P (some resp) command (some no) (some k) key2 args =
      (if P.hmac k (P.sha1 (listSlice resp (TPM_U16_SIZE + TPM_U32_SIZE) TPM_U32_SIZE
              ++ toTpmUint32 command ++ selBytes)
            ++ listSlice resp (S - (TPM_NONCE_SIZE + 1 + TPM_HASH_SIZE)) TPM_NONCE_SIZE
            ++ listSlice no 0 TPM_NONCE_SIZE
            ++ listSlice resp (S - (TPM_NONCE_SIZE + 1 + TPM_HASH_SIZE) + TPM_NONCE_SIZE) 1)
          = listSlice resp (S - (TPM_NONCE_SIZE + 1 + TPM_HASH_SIZE) + TPM_NONCE_SIZE + 1)
              TPM_HASH_SIZE
       then CRun.ret TPM_SUCCESS else CRun.ret TPM_E_HMAC_FAIL) := by
  have cU16 : TPM_U16_SIZE = 2 := rfl
  have cU32 : TPM_U32_SIZE = 4 := rfl
  have cN : TPM_NONCE_SIZE = 20 := rfl
  have cH : TPM_HASH_SIZE = 20 := rfl
  simp only [TSS_CheckHMAC]
  rw [if_pos (by omega)]
  rw [htag, hS]
  have tagne : ¬(TPM_TAG_RSP_AUTH1_COMMAND = TPM_TAG_RSP_AUTH2_COMMAND) := by decide
  rw [if_neg (by decide)]
  rw [if_neg (by decide)]
  rw [if_neg (fun h => absurd h.1 tagne)]
  rw [readRange_eq_some resp (TPM_U16_SIZE + TPM_U32_SIZE) TPM_U32_SIZE hhdr, hsel,
    readRange_eq_some no 0 TPM_NONCE_SIZE (by omega)]
  simp only [if_neg tagne]
  rw [checkAuthBlock_eq P resp _ _ k S (TPM_NONCE_SIZE + 1 + TPM_HASH_SIZE) hlo hhi
    (le_refl _)]
  by_cases hcmp :
      P.hmac k (P.sha1 (listSlice resp (TPM_U16_SIZE + TPM_U32_SIZE) TPM_U32_SIZE
          ++ toTpmUint32 command ++ selBytes)
        ++ listSlice resp (S - (TPM_NONCE_SIZE + 1 + TPM_HASH_SIZE)) TPM_NONCE_SIZE
        ++ listSlice no 0 TPM_NONCE_SIZE
        ++ listSlice resp (S - (TPM_NONCE_SIZE + 1 + TPM_HASH_SIZE) + TPM_NONCE_SIZE) 1)
      = listSlice resp (S - (TPM_NONCE_SIZE + 1 + TPM_HASH_SIZE) + TPM_NONCE_SIZE + 1)
          TPM_HASH_SIZE
  · rw [decide_eq_true hcmp, if_pos hcmp]
  · rw [decide_eq_false hcmp, if_neg hcmp]

/-- Reduction of `TSS_CheckHMAC` on an in-bounds AUTH2 response with both
keys present: the earlier trailer block (at `size - 2*(nonce+1+digest)`) is
checked against `key`, then the later block (at `size - (nonce+1+digest)`)
against `key2`; the call succeeds exactly when both comparisons succeed. -/
theorem TSS_CheckHMAC_auth2_eq (P : HashPrims) (resp no k k2 : List Nat)
    (command : Nat) (args : List (Nat × Nat)) (selBytes : List Nat) (S : Nat)
    (htag : fromTpmUint16 resp 0 = TPM_TAG_RSP_AUTH2_COMMAND)
    (hS : fromTpmUint32 resp TPM_U16_SIZE = S)
    (hhdr : TPM_U16_SIZE + TPM_U32_SIZE + TPM_U32_SIZE ≤ resp.length)
    (hsel : rangesBytes resp (vaRanges args) = some selBytes)
    (hno : TPM_NONCE_SIZE ≤ no.length)
    (hlo : 2 * (TPM_NONCE_SIZE + 1 + TPM_HASH_SIZE) ≤ S)
    (hhi : S ≤ resp.length) :
    TSS_CheckHMAC P (some resp) command (some no) (some k) (some k2) args =
      (if P.hmac k (P.sha1 (listSlice resp (TPM_U16_SIZE + TPM_U32_SIZE) TPM_U32_SIZE
              ++ toTpmUint32 command ++ selBytes)
            ++ listSlice resp (S - 2 * (TPM_NONCE_SIZE + 1 + TPM_HASH_SIZE)) TPM_NONCE_SIZE
            ++ listSlice no 0 TPM_NONCE_SIZE
            ++ listSlice resp
                (S - 2 * (TPM_NONCE_SIZE + 1 + TPM_HASH_SIZE) + TPM_NONCE_SIZE) 1)
          = listSlice resp
              (S - 2 * (TPM_NONCE_SIZE + 1 + TPM_HASH_SIZE) + TPM_NONCE_SIZE + 1)
              TPM_HASH_SIZE
       then
        (if P.hmac k2 (P.sha1 (listSlice resp (TPM_U16_SIZE + TPM_U32_SIZE) TPM_U32_SIZE
                ++ toTpmUint32 command ++ selBytes)
              ++ listSlice resp (S - (TPM_NONCE_SIZE + 1 + TPM_HASH_SIZE)) TPM_NONCE_SIZE
              ++ listSlice no 0 TPM_NONCE_SIZE
              ++ listSlice resp
                  (S - (TPM_NONCE_SIZE + 1 + TPM_HASH_SIZE) + TPM_NONCE_SIZE) 1)
            = listSlice resp
                (S - (TPM_NONCE_SIZE + 1 + TPM_HASH_SIZE) + TPM_NONCE_SIZE + 1)
                TPM_HASH_SIZE
         then CRun.ret TPM_SUCCESS else CRun.ret TPM_E_HMAC_FAIL)
       else CRun.ret TPM_E_HMAC_FAIL) := by
  have cU16 : TPM_U16_SIZE = 2 := rfl
  have cU32 : TPM_U32_SIZE = 4 := rfl
  have cN : TPM_NONCE_SIZE = 20 := rfl
  have cH : TPM_HASH_SIZE = 20 := rfl
  simp only [TSS_CheckHMAC]
  rw [if_pos (by omega)]
  rw [htag, hS]
  rw [if_neg (by decide)]
  rw [if_neg (by decide)]
  rw [if_neg (fun h => Option.noConfusion h.2)]
  rw [readRange_eq_some resp (TPM_U16_SIZE + TPM_U32_SIZE) TPM_U32_SIZE hhdr, hsel,
    readRange_eq_some no 0 TPM_NONCE_SIZE (by omega)]
  have tageq : (TPM_TAG_RSP_AUTH2_COMMAND = TPM_TAG_RSP_AUTH2_COMMAND) = True := by simp
  simp only [tageq, if_true]
  have hhalf : 2 * (TPM_NONCE_SIZE + 1 + TPM_HASH_SIZE) / 2
      = TPM_NONCE_SIZE + 1 + TPM_HASH_SIZE := by omega
  simp only [hhalf]
  rw [checkAuthBlock_eq P resp _ _ k S (2 * (TPM_NONCE_SIZE + 1 + TPM_HASH_SIZE))
    hlo hhi (by omega)]
  rw [checkAuthBlock_eq P resp _ _ k2 S (TPM_NONCE_SIZE + 1 + TPM_HASH_SIZE)
    (by omega) hhi (le_refl _)]
  by_cases hcmp1 :
      P.hmac k (P.sha1 (listSlice resp (TPM_U16_SIZE + TPM_U32_SIZE) TPM_U32_SIZE
          ++ toTpmUint32 command ++ selBytes)
        ++ listSlice resp (S - 2 * (TPM_NONCE_SIZE + 1 + TPM_HASH_SIZE)) TPM_NONCE_SIZE
        ++ listSlice no 0 TPM_NONCE_SIZE
        ++ listSlice resp
            (S - 2 * (TPM_NONCE_SIZE + 1 + TPM_HASH_SIZE) + TPM_NONCE_SIZE) 1)
      = listSlice resp
          (S - 2 * (TPM_NONCE_SIZE + 1 + TPM_HASH_SIZE) + TPM_NONCE_SIZE + 1)
          TPM_HASH_SIZE
  · rw [decide_eq_true hcmp1, if_pos hcmp1]
    by_cases hcmp2 :
        P.hmac k2 (P.sha1 (listSlice resp (TPM_U16_SIZE + TPM_U32_SIZE) TPM_U32_SIZE
            ++ toTpmUint32 command ++ selBytes)
          ++ listSlice resp (S - (TPM_NONCE_SIZE + 1 + TPM_HASH_SIZE)) TPM_NONCE_SIZE
          ++ listSlice no 0 TPM_NONCE_SIZE
          ++ listSlice resp
              (S - (TPM_NONCE_SIZE + 1 + TPM_HASH_SIZE) + TPM_NONCE_SIZE) 1)
        = listSlice resp
            (S - (TPM_NONCE_SIZE + 1 + TPM_HASH_SIZE) + TPM_NONCE_SIZE + 1)
            TPM_HASH_SIZE
    · rw [decide_eq_true hcmp2, if_pos hcmp2]
    · rw [decide_eq_false hcmp2, if_neg hcmp2]
  · rw [decide_eq_false hcmp1, if_neg hcmp1]

/-- A `NULL` response is dereferenced by `FromTpmUint16` before any check. -/
theorem TSS_CheckHMAC_null_response (P : HashPrims) (command : Nat)
    (nonceOdd key key2 : Option (List Nat)) (args : List (Nat × Nat)) :
    TSS_CheckHMAC P none command nonceOdd key key2 args = CRun.undef := rfl

/-- A response whose tag decodes to `TPM_TAG_RSP_COMMAND` (NO_AUTH) returns
success immediately, before the `NULL`-argument check. -/
theorem TSS_CheckHMAC_noauth (P : HashPrims) (resp : List Nat) (command : Nat)
    (nonceOdd key key2 : Option (List Nat)) (args : List (Nat × Nat))
    (hhdr : TPM_U16_SIZE + TPM_U32_SIZE ≤ resp.length)
    (htag : fromTpmUint16 resp 0 = TPM_TAG_RSP_COMMAND) :
    TSS_CheckHMAC P (some resp) command nonceOdd key key2 args =
      CRun.ret TPM_SUCCESS := by
  simp only [TSS_CheckHMAC]
  rw [if_pos hhdr, htag, if_pos rfl]

/-- With a non-NO_AUTH tag, a missing odd nonce or key is caught by the
`NULL`-argument check. -/
theorem TSS_CheckHMAC_null_arg (P : HashPrims) (resp : List Nat) (command : Nat)
    (nonceOdd key key2 : Option (List Nat)) (args : List (Nat × Nat))
    (hhdr : TPM_U16_SIZE + TPM_U32_SIZE ≤ resp.length)
    (htag : fromTpmUint16 resp 0 ≠ TPM_TAG_RSP_COMMAND)
    (hnull : nonceOdd = none ∨ key = none) :
    TSS_CheckHMAC P (some resp) command nonceOdd key key2 args =
      CRun.ret TPM_E_NULL_ARG := by
  simp only [TSS_CheckHMAC]
  rw [if_pos hhdr, if_neg htag]
  rcases hnull with h | h
  · subst h; rfl
  · subst h; cases nonceOdd <;> rfl

/-- A recognized-tag check: a tag that is neither NO_AUTH, AUTH1 nor AUTH2
fails with the HMAC-failure code once the `NULL`-argument check passed. -/
theorem TSS_CheckHMAC_bad_tag (P : HashPrims) (resp no k : List Nat)
    (key2 : Option (List Nat)) (command : Nat) (args : List (Nat × Nat))
    (hhdr : TPM_U16_SIZE + TPM_U32_SIZE ≤ resp.length)
    (h0 : fromTpmUint16 resp 0 ≠ TPM_TAG_RSP_COMMAND)
    (h1 : fromTpmUint16 resp 0 ≠ TPM_TAG_RSP_AUTH1_COMMAND)
    (h2 : fromTpmUint16 resp 0 ≠ TPM_TAG_RSP_AUTH2_COMMAND) :
    TSS_CheckHMAC P (some resp) command (some no) (some k) key2 args =
      CRun.ret TPM_E_HMAC_FAIL := by
  simp only [TSS_CheckHMAC]
  rw [if_pos hhdr, if_neg h0]
  simp only [if_pos (And.intro h1 h2)]

/-- An AUTH2 tag with a missing second key fails with the `NULL`-argument
code (after the first `NULL` check on the response, nonce and key). -/
theorem TSS_CheckHMAC_auth2_null_key2 (P : HashPrims) (resp no k : List Nat)
    (command : Nat) (args : List (Nat × Nat))
    (hhdr : TPM_U16_SIZE + TPM_U32_SIZE ≤ resp.length)
    (htag : fromTpmUint16 resp 0 = TPM_TAG_RSP_AUTH2_COMMAND) :
    TSS_CheckHMAC P (some resp) command (some no) (some k) none args =
      CRun.ret TPM_E_NULL_ARG := by
  simp only [TSS_CheckHMAC]
  rw [if_pos hhdr, htag, if_neg (by decide), if_neg (by decide),
    if_pos (And.intro rfl trivial)]

/-- A trailer offset larger than the declared size underflows the pointer
arithmetic: the block check is undefined behavior. -/
theorem checkAuthBlock_offset_oob (P : HashPrims) (resp pd nob k : List Nat)
    (S off : Nat) (h : S < off) :
    checkAuthBlock P resp pd nob k S off = none := by
  unfold checkAuthBlock
  rw [if_neg (by omega)]

/-- An out-of-bounds selection range makes `TSS_CheckHMAC` read outside the
response buffer (undefined behavior), for an AUTH1-tagged response. -/
theorem TSS_CheckHMAC_sel_oob (P : HashPrims) (resp no k : List Nat)
    (key2 : Option (List Nat)) (command : Nat) (args : List (Nat × Nat))
    (hhdr : TPM_U16_SIZE + TPM_U32_SIZE + TPM_U32_SIZE ≤ resp.length)
    (htag : fromTpmUint16 resp 0 = TPM_TAG_RSP_AUTH1_COMMAND)
    (hsel : rangesBytes resp (vaRanges args) = none)
    (hno : TPM_NONCE_SIZE ≤ no.length) :
    TSS_CheckHMAC P (some resp) command (some no) (some k) key2 args =
      CRun.undef := by
  have cU16 : TPM_U16_SIZE = 2 := rfl
  have cU32 : TPM_U32_SIZE = 4 := rfl
  simp only [TSS_CheckHMAC]
  rw [if_pos (by omega), htag]
  rw [if_neg (by decide)]
  rw [if_neg (by decide)]
  rw [if_neg (fun h => absurd h.1 (by decide))]
  rw [readRange_eq_some resp (TPM_U16_SIZE + TPM_U32_SIZE) TPM_U32_SIZE hhdr, hsel,
    readRange_eq_some no 0 TPM_NONCE_SIZE (by omega)]

/-- A trailer offset exceeding the declared size makes `TSS_CheckHMAC`
underflow `response + size - offset` (undefined behavior), AUTH1 case. -/
theorem TSS_CheckHMAC_trailer_oob (P : HashPrims) (resp no k : List Nat)
    (key2 : Option (List Nat)) (command : Nat) (args : List (Nat × Nat))
    (selBytes : List Nat)
    (hhdr : TPM_U16_SIZE + TPM_U32_SIZE + TPM_U32_SIZE ≤ resp.length)
    (htag : fromTpmUint16 resp 0 = TPM_TAG_RSP_AUTH1_COMMAND)
    (hsel : rangesBytes resp (vaRanges args) = some selBytes)
    (hno : TPM_NONCE_SIZE ≤ no.length)
    (hS : fromTpmUint32 resp TPM_U16_SIZE < TPM_NONCE_SIZE + 1 + TPM_HASH_SIZE) :
    TSS_CheckHMAC P (some resp) command (some no) (some k) key2 args =
      CRun.undef := by
  have cU16 : TPM_U16_SIZE = 2 := rfl
  have cU32 : TPM_U32_SIZE = 4 := rfl
  simp only [TSS_CheckHMAC]
  rw [if_pos (by omega), htag]
  rw [if_neg (by decide)]
  rw [if_neg (by decide)]
  rw [if_neg (fun h => absurd h.1 (by decide))]
  rw [readRange_eq_some resp (TPM_U16_SIZE + TPM_U32_SIZE) TPM_U32_SIZE hhdr, hsel,
    readRange_eq_some no 0 TPM_NONCE_SIZE (by omega)]
  have tagne : ¬(TPM_TAG_RSP_AUTH1_COMMAND = TPM_TAG_RSP_AUTH2_COMMAND) := by decide
  simp only [if_neg tagne]
  rw [checkAuthBlock_offset_oob P resp _ _ k (fromTpmUint32 resp TPM_U16_SIZE)
    (TPM_NONCE_SIZE + 1 + TPM_HASH_SIZE) hS]

/-- Reduction of `TSS_AuthHMAC` on a fully valid call: the digest is the
HMAC of the parameter digest over exactly the selected ranges, then the
first (odd) nonce, the second (even) nonce, and the auth byte. -/
theorem TSS_AuthHMAC_ok (P : HashPrims) (key n1 n2 : List Nat) (ab : Nat)
    (args : List (Nat × Option (List Nat))) (data : List Nat)
    (hscan : scanAuthArgs args = VaScan.ok data)
    (h1 : TPM_NONCE_SIZE ≤ n1.length) (h2 : TPM_NONCE_SIZE ≤ n2.length) :
    TSS_AuthHMAC P key (some n1) (some n2) ab args =
      AuthResult.ok (P.hmac key (P.sha1 data
        ++ listSlice n1 0 TPM_NONCE_SIZE ++ listSlice n2 0 TPM_NONCE_SIZE
        ++ [ab % 256])) := by
  simp only [TSS_AuthHMAC]
  rw [hscan, readRange_eq_some n1 0 TPM_NONCE_SIZE (by omega),
    readRange_eq_some n2 0 TPM_NONCE_SIZE (by omega)]

/-- A `NULL` data pointer among the variadic entries of `TSS_AuthHMAC` is
caught inside the hashing loop, before any HMAC computation. -/
theorem TSS_AuthHMAC_null_entry (P : HashPrims) (key n1 n2 : List Nat)
    (ab : Nat) (args : List (Nat × Option (List Nat)))
    (hscan : scanAuthArgs args = VaScan.nullArg) :
    TSS_AuthHMAC P key (some n1) (some n2) ab args =
      AuthResult.err TPM_E_NULL_ARG := by
  simp only [TSS_AuthHMAC]
  rw [hscan]

/-! ### Concrete fixtures -/

/-- Caller-generated odd nonce used by the concrete fixtures. -/
def oddNonce : List Nat := List.replicate 20 1

/-- Session key used by the concrete fixtures. -/
def sessionKey : List Nat := [9]

/-- An AUTH1 response of declared size 47 whose embedded trailer HMAC is the
one `testPrims` recomputes (trailer at offset 6: even nonce and continue
flag are 3-bytes, embedded HMAC bytes 27-46). -/
def auth1Resp : List Nat :=
  [0, 197, 0, 0, 0, 47] ++ List.replicate 21 3 ++ List.replicate 20 117

/-- An AUTH2 response of declared size 88 whose first trailer block carries
the correct HMAC for `sessionKey` and whose second block carries a wrong
one. -/
def auth2Resp : List Nat :=
  [0, 198, 0, 0, 0, 88] ++ List.replicate 21 4 ++ List.replicate 20 14
    ++ List.replicate 21 5 ++ List.replicate 20 9

/-- An AUTH1 response of declared size 100 (the spec's concrete scenario),
with uniform filler bytes; its embedded HMAC does not match. -/
def auth1Resp100 : List Nat :=
  [0, 197, 0, 0, 0, 100] ++ List.replicate 94 2

/-- A NO_AUTH-tagged response with arbitrary trailer bytes. -/
def noAuthResp : List Nat :=
  [0, 196, 0, 0, 0, 47] ++ List.replicate 41 3

/-- A response with an unrecognized tag (0x00C7). -/
def badTagResp : List Nat :=
  [0, 199, 0, 0, 0, 47] ++ List.replicate 41 3

/-- An AUTH1 response whose declared size 10 is smaller than one trailer
block. -/
def shortResp : List Nat :=
  [0, 197, 0, 0, 0, 10] ++ List.replicate 4 3

/-- Whether a `TSS_AuthHMAC` outcome is a success carrying a digest. -/
def AuthResult.isOkResult : AuthResult → Bool
  | AuthResult.ok _ => true
  | _ => false

/-- Whether a C run returned at all (as opposed to undefined behavior). -/
def CRun.isReturn : CRun → Bool
  | CRun.ret _ => true
  | CRun.undef => false

/-! ### Claims -/

/-- C1: for every AUTH1-tagged response with non-null response, nonceOdd and
key (and all accessed bytes inside the buffers), `TSS_CheckHMAC` computes
the parameter digest as the plain hash of the 4 return-code bytes at offset
6, then the 4 big-endian ordinal bytes of the command argument, then each
caller-selected response range in the order supplied; it then computes
`HMAC(key, paramDigest ++ evenNonce ++ nonceOdd ++ continueFlag)` and
returns success exactly when that value equals, byte for byte, the
digest-size HMAC field embedded in the trailer, and the HMAC-failure code
on any mismatch. -/
theorem claim_C1 (P : HashPrims) (resp no k : List Nat)
    (key2 : Option (List Nat)) (command : Nat) (args : List (Nat × Nat))
    (selBytes : List Nat) (S : Nat)
    (htag : fromTpmUint16 resp 0 = TPM_TAG_RSP_AUTH1_COMMAND)
    (hS : fromTpmUint32 resp TPM_U16_SIZE = S)
    (hhdr : TPM_U16_SIZE + TPM_U32_SIZE + TPM_U32_SIZE ≤ resp.length)
    (hsel : rangesBytes resp (vaRanges args) = some selBytes)
    (hno : TPM_NONCE_SIZE ≤ no.length)
    (hlo : TPM_NONCE_SIZE + 1 + TPM_HASH_SIZE ≤ S)
    (hhi : S ≤ resp.length) :
    TSS_CheckHMAC P (some resp) command (some no) (some k) key2 args =
      (if P.hmac k (P.sha1 (listSlice resp (TPM_U16_SIZE + TPM_U32_SIZE) TPM_U32_SIZE
              ++ toTpmUint32 command ++ selBytes)
            ++ listSlice resp (S - (TPM_NONCE_SIZE + 1 + TPM_HASH_SIZE)) TPM_NONCE_SIZE
            ++ listSlice no 0 TPM_NONCE_SIZE
            ++ listSlice resp (S - (TPM_NONCE_SIZE + 1 + TPM_HASH_SIZE) + TPM_NONCE_SIZE) 1)
          = listSlice resp (S - (TPM_NONCE_SIZE + 1 + TPM_HASH_SIZE) + TPM_NONCE_SIZE + 1)
              TPM_HASH_SIZE
       then CRun.ret TPM_SUCCESS else CRun.ret TPM_E_HMAC_FAIL) :=
  TSS_CheckHMAC_auth1_eq P resp no k key2 command args selBytes S
    htag hS hhdr hsel hno hlo hhi

/-- Witness for C1: the success branch on the concrete AUTH1 fixture whose
embedded HMAC is the recomputed one. -/
theorem claim_C1_witness :
    TSS_CheckHMAC testPrims (some auth1Resp) 7 (some oddNonce) (some sessionKey)
      none [] = CRun.ret TPM_SUCCESS :=
  (claim_C1 testPrims auth1Resp oddNonce sessionKey none 7 [] [] 47
    (by decide) (by decide) (by decide) (by decide) (by decide) (by decide)
    (by decide)).trans (by decide)

/-- C2 counterexample: a call of `TSS_AuthHMAC` with both nonces non-null
but a null-pointer selection entry does not return success — it returns the
`NULL`-argument code — so the claim's universal statement fails at this
input. -/
theorem claim_C2_counterexample :
    TSS_AuthHMAC testPrims sessionKey (some oddNonce) (some oddNonce) 1
        [(1, none)] = AuthResult.err TPM_E_NULL_ARG ∧
      (TSS_AuthHMAC testPrims sessionKey (some oddNonce) (some oddNonce) 1
        [(1, none)]).isOkResult = false := by
  exact ⟨by decide, by decide⟩

/-- C2 (amended): for every call of `TSS_AuthHMAC` in which both nonces are
non-null, hold at least nonce-size bytes, and the variadic selection list
scans without a null pointer or out-of-bounds entry, the function returns
success with the digest `HMAC(key, paramDigest ++ nonceOdd ++ nonceEven ++
continueSessionByte)`, where the parameter digest is the plain hash of
exactly the supplied ranges in the order given, with no ordinal bytes
prepended (nonce order odd-then-even, the reverse of the verifier). -/
theorem claim_C2 (P : HashPrims) (key n1 n2 : List Nat) (ab : Nat)
    (args : List (Nat × Option (List Nat))) (data : List Nat)
    (hscan : scanAuthArgs args = VaScan.ok data)
    (h1 : TPM_NONCE_SIZE ≤ n1.length) (h2 : TPM_NONCE_SIZE ≤ n2.length) :
    TSS_AuthHMAC P key (some n1) (some n2) ab args =
      AuthResult.ok (P.hmac key (P.sha1 data
        ++ listSlice n1 0 TPM_NONCE_SIZE ++ listSlice n2 0 TPM_NONCE_SIZE
        ++ [ab % 256])) :=
  TSS_AuthHMAC_ok P key n1 n2 ab args data hscan h1 h2

/-- Witness for C2 at a concrete selection list. -/
theorem claim_C2_witness :
    TSS_AuthHMAC testPrims sessionKey (some oddNonce) (some oddNonce) 1
      [(2, some [4, 5])] = AuthResult.ok (List.replicate 20 147) :=
  (claim_C2 testPrims sessionKey oddNonce oddNonce 1 [(2, some [4, 5])] [4, 5]
    (by decide) (by decide) (by decide)).trans (by decide)

/-- C3: with digest size 20 and nonce size 20, the verifier of an AUTH1
response of declared total size `S` reads the even nonce at byte offset
`S - (20+1+20)`, the continue-session flag at `S - (1+20)`, and compares
against the embedded HMAC at `S - 20`. -/
theorem claim_C3 (P : HashPrims) (resp no k : List Nat)
    (key2 : Option (List Nat)) (command : Nat) (args : List (Nat × Nat))
    (selBytes : List Nat) (S : Nat)
    (htag : fromTpmUint16 resp 0 = TPM_TAG_RSP_AUTH1_COMMAND)
    (hS : fromTpmUint32 resp TPM_U16_SIZE = S)
    (hhdr : TPM_U16_SIZE + TPM_U32_SIZE + TPM_U32_SIZE ≤ resp.length)
    (hsel : rangesBytes resp (vaRanges args) = some selBytes)
    (hno : TPM_NONCE_SIZE ≤ no.length)
    (hlo : TPM_NONCE_SIZE + 1 + TPM_HASH_SIZE ≤ S)
    (hhi : S ≤ resp.length) :
    TSS_CheckHMAC P (some resp) command (some no) (some k) key2 args =
      (if P.hmac k (P.sha1 (listSlice resp (TPM_U16_SIZE + TPM_U32_SIZE) TPM_U32_SIZE
              ++ toTpmUint32 command ++ selBytes)
            ++ listSlice resp (S - (TPM_NONCE_SIZE + 1 + TPM_HASH_SIZE)) TPM_NONCE_SIZE
            ++ listSlice no 0 TPM_NONCE_SIZE
            ++ listSlice resp (S - (1 + TPM_HASH_SIZE)) 1)
          = listSlice resp (S - TPM_HASH_SIZE) TPM_HASH_SIZE
       then CRun.ret TPM_SUCCESS else CRun.ret TPM_E_HMAC_FAIL) := by
  have cN : TPM_NONCE_SIZE = 20 := rfl
  have cH : TPM_HASH_SIZE = 20 := rfl
  have e1 : S - (TPM_NONCE_SIZE + 1 + TPM_HASH_SIZE) + TPM_NONCE_SIZE
      = S - (1 + TPM_HASH_SIZE) := by omega
  have e2 : S - (TPM_NONCE_SIZE + 1 + TPM_HASH_SIZE) + TPM_NONCE_SIZE + 1
      = S - TPM_HASH_SIZE := by omega
  rw [TSS_CheckHMAC_auth1_eq P resp no k key2 command args selBytes S
    htag hS hhdr hsel hno hlo hhi, e2, e1]

/-- Witness for C3 at the spec's `S = 100` scenario: the even nonce is read
at offset 59, the continue flag at 79 and the HMAC at bytes 80-99. -/
theorem claim_C3_witness :
    TSS_CheckHMAC testPrims (some auth1Resp100) 7 (some oddNonce)
      (some sessionKey) none [] = CRun.ret TPM_E_HMAC_FAIL :=
  (claim_C3 testPrims auth1Resp100 oddNonce sessionKey none 7 [] [] 100
    (by decide) (by decide) (by decide) (by decide) (by decide) (by decide)
    (by decide)).trans (by decide)

/-- C4: for every AUTH2-tagged response with `key2` present (and all
accessed bytes inside the buffers), verification succeeds only if both
authorization blocks independently verify: first the earlier block at
offset `2*(nonceSize+1+digestSize)` from the end against `key`, then the
later block at offset `nonceSize+1+digestSize` from the end against `key2`,
with the same parameter digest and odd nonce in both; when the first block
verifies but the second block's HMAC mismatches, the result is the
HMAC-failure code. -/
theorem claim_C4 (P : HashPrims) (resp no k k2 : List Nat)
    (command : Nat) (args : List (Nat × Nat)) (selBytes : List Nat) (S : Nat)
    (htag : fromTpmUint16 resp 0 = TPM_TAG_RSP_AUTH2_COMMAND)
    (hS : fromTpmUint32 resp TPM_U16_SIZE = S)
    (hhdr : TPM_U16_SIZE + TPM_U32_SIZE + TPM_U32_SIZE ≤ resp.length)
    (hsel : rangesBytes resp (vaRanges args) = some selBytes)
    (hno : TPM_NONCE_SIZE ≤ no.length)
    (hlo : 2 * (TPM_NONCE_SIZE + 1 + TPM_HASH_SIZE) ≤ S)
    (hhi : S ≤ resp.length) :
    TSS_CheckHMAC P (some resp) command (some no) (some k) (some k2) args =
      (if P.hmac k (P.sha1 (listSlice resp (TPM_U16_SIZE + TPM_U32_SIZE) TPM_U32_SIZE
              ++ toTpmUint32 command ++ selBytes)
            ++ listSlice resp (S - 2 * (TPM_NONCE_SIZE + 1 + TPM_HASH_SIZE)) TPM_NONCE_SIZE
            ++ listSlice no 0 TPM_NONCE_SIZE
            ++ listSlice resp
                (S - 2 * (TPM_NONCE_SIZE + 1 + TPM_HASH_SIZE) + TPM_NONCE_SIZE) 1)
          = listSlice resp
              (S - 2 * (TPM_NONCE_SIZE + 1 + TPM_HASH_SIZE) + TPM_NONCE_SIZE + 1)
              TPM_HASH_SIZE
       then
        (if P.hmac k2 (P.sha1 (listSlice resp (TPM_U16_SIZE + TPM_U32_SIZE) TPM_U32_SIZE
                ++ toTpmUint32 command ++ selBytes)
              ++ listSlice resp (S - (TPM_NONCE_SIZE + 1 + TPM_HASH_SIZE)) TPM_NONCE_SIZE
              ++ listSlice no 0 TPM_NONCE_SIZE
              ++ listSlice resp
                  (S - (TPM_NONCE_SIZE + 1 + TPM_HASH_SIZE) + TPM_NONCE_SIZE) 1)
            = listSlice resp
                (S - (TPM_NONCE_SIZE + 1 + TPM_HASH_SIZE) + TPM_NONCE_SIZE + 1)
                TPM_HASH_SIZE
         then CRun.ret TPM_SUCCESS else CRun.ret TPM_E_HMAC_FAIL)
       else CRun.ret TPM_E_HMAC_FAIL) :=
  TSS_CheckHMAC_auth2_eq P resp no k k2 command args selBytes S
    htag hS hhdr hsel hno hlo hhi

/-- Witness for C4: the spec's scenario — first block correct, second block
corrupted — fails with the HMAC-failure code. -/
theorem claim_C4_witness :
    TSS_CheckHMAC testPrims (some auth2Resp) 7 (some oddNonce)
      (some sessionKey) (some sessionKey) [] = CRun.ret TPM_E_HMAC_FAIL :=
  (claim_C4 testPrims auth2Resp oddNonce sessionKey sessionKey 7 [] [] 88
    (by decide) (by decide) (by decide) (by decide) (by decide) (by decide)
    (by decide)).trans (by decide)

/-- C5 counterexample: an out-of-bounds selection range does not produce
any returned error — the source performs the out-of-bounds read (undefined
behavior); no `InvalidRange` code exists in the source. -/
theorem claim_C5_counterexample :
    TSS_CheckHMAC testPrims (some auth1Resp) 7 (some oddNonce)
        (some sessionKey) none [(5, 200)] = CRun.undef ∧
      (TSS_CheckHMAC testPrims (some auth1Resp) 7 (some oddNonce)
        (some sessionKey) none [(5, 200)]).isReturn = false := by
  exact ⟨by decide, by decide⟩

/-- C5 (amended): in the source, a selection range outside the message
buffer, or a trailer offset `nonceSize+1+digestSize` exceeding the declared
total size, leads to an out-of-bounds (resp. underflowing) buffer access —
undefined behavior — instead of an `InvalidRange` error; the `InvalidRange`
failure is a hardening the spec requires of the reimplementation only
(AUTH1 case shown). -/
theorem claim_C5 :
    (∀ (P : HashPrims) (resp no k : List Nat) (key2 : Option (List Nat))
      (command : Nat) (args : List (Nat × Nat)),
      TPM_U16_SIZE + TPM_U32_SIZE + TPM_U32_SIZE ≤ resp.length →
      fromTpmUint16 resp 0 = TPM_TAG_RSP_AUTH1_COMMAND →
      rangesBytes resp (vaRanges args) = none →
      TPM_NONCE_SIZE ≤ no.length →
      TSS_CheckHMAC P (some resp) command (some no) (some k) key2 args =
        CRun.undef) ∧
    (∀ (P : HashPrims) (resp no k : List Nat) (key2 : Option (List Nat))
      (command : Nat) (args : List (Nat × Nat)) (selBytes : List Nat),
      TPM_U16_SIZE + TPM_U32_SIZE + TPM_U32_SIZE ≤ resp.length →
      fromTpmUint16 resp 0 = TPM_TAG_RSP_AUTH1_COMMAND →
      rangesBytes resp (vaRanges args) = some selBytes →
      TPM_NONCE_SIZE ≤ no.length →
      fromTpmUint32 resp TPM_U16_SIZE < TPM_NONCE_SIZE + 1 + TPM_HASH_SIZE →
      TSS_CheckHMAC P (some resp) command (some no) (some k) key2 args =
        CRun.undef) := by
  constructor
  · intro P resp no k key2 command args hhdr htag hsel hno
    exact TSS_CheckHMAC_sel_oob P resp no k key2 command args hhdr htag hsel hno
  · intro P resp no k key2 command args selBytes hhdr htag hsel hno hS
    exact TSS_CheckHMAC_trailer_oob P resp no k key2 command args selBytes
      hhdr htag hsel hno hS

/-- Witness for C5: both undefined-behavior cases at concrete inputs — an
out-of-range selection, and a declared size smaller than one trailer. -/
theorem claim_C5_witness :
    TSS_CheckHMAC testPrims (some auth1Resp) 7 (some oddNonce)
        (some sessionKey) none [(5, 200)] = CRun.undef ∧
      TSS_CheckHMAC testPrims (some shortResp) 7 (some oddNonce)
        (some sessionKey) none [] = CRun.undef :=
  ⟨claim_C5.1 testPrims auth1Resp oddNonce sessionKey none 7 [(5, 200)]
      (by decide) (by decide) (by decide) (by decide),
    claim_C5.2 testPrims shortResp oddNonce sessionKey none 7 [] []
      (by decide) (by decide) (by decide) (by decide) (by decide)⟩

/-- C6: the verifier dispatches on the 2-byte tag decoded from the start of
the response: a NO_AUTH tag succeeds regardless of the trailer contents
(and regardless of the other arguments), and a tag that is neither NO_AUTH,
AUTH1 nor AUTH2 fails with the HMAC-failure code. -/
theorem claim_C6 :
    (∀ (P : HashPrims) (resp : List Nat) (command : Nat)
      (nonceOdd key key2 : Option (List Nat)) (args : List (Nat × Nat)),
      TPM_U16_SIZE + TPM_U32_SIZE ≤ resp.length →
      fromTpmUint16 resp 0 = TPM_TAG_RSP_COMMAND →
      TSS_CheckHMAC P (some resp) command nonceOdd key key2 args =
        CRun.ret TPM_SUCCESS) ∧
    (∀ (P : HashPrims) (resp no k : List Nat) (key2 : Option (List Nat))
      (command : Nat) (args : List (Nat × Nat)),
      TPM_U16_SIZE + TPM_U32_SIZE ≤ resp.length →
      fromTpmUint16 resp 0 ≠ TPM_TAG_RSP_COMMAND →
      fromTpmUint16 resp 0 ≠ TPM_TAG_RSP_AUTH1_COMMAND →
      fromTpmUint16 resp 0 ≠ TPM_TAG_RSP_AUTH2_COMMAND →
      TSS_CheckHMAC P (some resp) command (some no) (some k) key2 args =
        CRun.ret TPM_E_HMAC_FAIL) := by
  constructor
  · intro P resp command nonceOdd key key2 args hhdr htag
    exact TSS_CheckHMAC_noauth P resp command nonceOdd key key2 args hhdr htag
  · intro P resp no k key2 command args hhdr h0 h1 h2
    exact TSS_CheckHMAC_bad_tag P resp no k key2 command args hhdr h0 h1 h2

/-- Witness for C6: a NO_AUTH response succeeds even with every other
argument null, and an unrecognized tag (0x00C7) fails. -/
theorem claim_C6_witness :
    TSS_CheckHMAC testPrims (some noAuthResp) 7 none none none [] =
        CRun.ret TPM_SUCCESS ∧
      TSS_CheckHMAC testPrims (some badTagResp) 7 (some oddNonce)
        (some sessionKey) none [] = CRun.ret TPM_E_HMAC_FAIL :=
  ⟨claim_C6.1 testPrims noAuthResp 7 none none none [] (by decide) (by decide),
    claim_C6.2 testPrims badTagResp oddNonce sessionKey none 7 []
      (by decide) (by decide) (by decide) (by decide)⟩

/-- C7: every response whose tag decodes to AUTH2 and whose `key2` argument
is absent yields the `NULL`-argument code — never a crash and never a
dereference of the absent key (whatever `nonceOdd` and `key` are). -/
theorem claim_C7 (P : HashPrims) (resp : List Nat) (command : Nat)
    (nonceOdd key : Option (List Nat)) (args : List (Nat × Nat))
    (hhdr : TPM_U16_SIZE + TPM_U32_SIZE ≤ resp.length)
    (htag : fromTpmUint16 resp 0 = TPM_TAG_RSP_AUTH2_COMMAND) :
    TSS_CheckHMAC P (some resp) command nonceOdd key none args =
      CRun.ret TPM_E_NULL_ARG := by
  have hne : fromTpmUint16 resp 0 ≠ TPM_TAG_RSP_COMMAND := by
    rw [htag]; decide
  cases nonceOdd with
  | none =>
    exact TSS_CheckHMAC_null_arg P resp command none key none args hhdr hne
      (Or.inl rfl)
  | some no =>
    cases key with
    | none =>
      exact TSS_CheckHMAC_null_arg P resp command (some no) none none args
        hhdr hne (Or.inr rfl)
    | some k =>
      exact TSS_CheckHMAC_auth2_null_key2 P resp no k command args hhdr htag

/-- Witness for C7 on the concrete AUTH2 fixture. -/
theorem claim_C7_witness :
    TSS_CheckHMAC testPrims (some auth2Resp) 7 (some oddNonce)
      (some sessionKey) none [] = CRun.ret TPM_E_NULL_ARG :=
  claim_C7 testPrims auth2Resp 7 (some oddNonce) (some sessionKey) []
    (by decide) (by decide)

/-- C8 counterexample: a call with null `nonceOdd` and `key` on a response
whose tag is NO_AUTH returns success, not the `NULL`-argument code — the
claim's "whatever the tag value" fails at this input. -/
theorem claim_C8_counterexample :
    TSS_CheckHMAC testPrims (some noAuthResp) 7 none none none [] =
        CRun.ret TPM_SUCCESS ∧
      CRun.ret TPM_SUCCESS ≠ CRun.ret TPM_E_NULL_ARG := by
  exact ⟨by decide, by decide⟩

/-- C8 (amended): a null `nonceOdd` or `key` yields the `NULL`-argument
code only once the response is non-null and its tag is not NO_AUTH (a
NO_AUTH tag returns success first); a null response is dereferenced by the
initial tag read — undefined behavior — before the null check can fire. -/
theorem claim_C8 :
    (∀ (P : HashPrims) (resp : List Nat) (command : Nat)
      (nonceOdd key key2 : Option (List Nat)) (args : List (Nat × Nat)),
      TPM_U16_SIZE + TPM_U32_SIZE ≤ resp.length →
      fromTpmUint16 resp 0 ≠ TPM_TAG_RSP_COMMAND →
      nonceOdd = none ∨ key = none →
      TSS_CheckHMAC P (some resp) command nonceOdd key key2 args =
        CRun.ret TPM_E_NULL_ARG) ∧
    (∀ (P : HashPrims) (command : Nat) (nonceOdd key key2 : Option (List Nat))
      (args : List (Nat × Nat)),
      TSS_CheckHMAC P none command nonceOdd key key2 args = CRun.undef) := by
  constructor
  · intro P resp command nonceOdd key key2 args hhdr htag hnull
    exact TSS_CheckHMAC_null_arg P resp command nonceOdd key key2 args
      hhdr htag hnull
  · intro P command nonceOdd key key2 args
    exact TSS_CheckHMAC_null_response P command nonceOdd key key2 args

/-- Witness for C8: a null nonce on an AUTH1 response yields the
`NULL`-argument code, and a null response is undefined behavior. -/
theorem claim_C8_witness :
    TSS_CheckHMAC testPrims (some auth1Resp) 7 none none none [] =
        CRun.ret TPM_E_NULL_ARG ∧
      TSS_CheckHMAC testPrims none 7 none none none [] = CRun.undef :=
  ⟨claim_C8.1 testPrims auth1Resp 7 none none none [] (by decide) (by decide)
      (Or.inl rfl),
    claim_C8.2 testPrims 7 none none none []⟩

/-- C9: the tag and size are read from the response and the NO_AUTH
early-success return is taken before any null-argument check: a NO_AUTH
response returns success even with `nonceOdd` and `key` null, and a null
response is dereferenced (undefined behavior) before the null check. -/
theorem claim_C9 :
    (∀ (P : HashPrims) (resp : List Nat) (command : Nat)
      (args : List (Nat × Nat)),
      TPM_U16_SIZE + TPM_U32_SIZE ≤ resp.length →
      fromTpmUint16 resp 0 = TPM_TAG_RSP_COMMAND →
      TSS_CheckHMAC P (some resp) command none none none args =
        CRun.ret TPM_SUCCESS) ∧
    (∀ (P : HashPrims) (command : Nat) (nonceOdd key key2 : Option (List Nat))
      (args : List (Nat × Nat)),
      TSS_CheckHMAC P none command nonceOdd key key2 args = CRun.undef) := by
  constructor
  · intro P resp command args hhdr htag
    exact TSS_CheckHMAC_noauth P resp command none none none args hhdr htag
  · intro P command nonceOdd key key2 args
    exact TSS_CheckHMAC_null_response P command nonceOdd key key2 args

/-- Witness for C9 at concrete inputs. -/
theorem claim_C9_witness :
    TSS_CheckHMAC testPrims (some noAuthResp) 9 none none none [(3, 6)] =
        CRun.ret TPM_SUCCESS ∧
      TSS_CheckHMAC testPrims none 9 none (some sessionKey) none [] =
        CRun.undef :=
  ⟨claim_C9.1 testPrims noAuthResp 9 [(3, 6)] (by decide) (by decide),
    claim_C9.2 testPrims 9 none (some sessionKey) none []⟩

/-- C10: for every call of `TSS_AuthHMAC` with valid (non-null) nonces, a
null data pointer among the variadic selection entries (reached before any
out-of-bounds entry) returns the `NULL`-argument code from inside the
hashing loop, before any HMAC computation; the error outcome carries no
digest — the caller's output buffer is untouched. -/
theorem claim_C10 (P : HashPrims) (key n1 n2 : List Nat) (ab : Nat)
    (args : List (Nat × Option (List Nat)))
    (hscan : scanAuthArgs args = VaScan.nullArg) :
    TSS_AuthHMAC P key (some n1) (some n2) ab args =
      AuthResult.err TPM_E_NULL_ARG :=
  TSS_AuthHMAC_null_entry P key n1 n2 ab args hscan

/-- Witness for C10: a null data pointer in the second entry. -/
theorem claim_C10_witness :
    TSS_AuthHMAC testPrims sessionKey (some oddNonce) (some oddNonce) 1
      [(3, some [1, 2, 3]), (2, none)] = AuthResult.err TPM_E_NULL_ARG :=
  claim_C10 testPrims sessionKey oddNonce oddNonce 1
    [(3, some [1, 2, 3]), (2, none)] (by decide)

end Sboot
